import Mathlib

/-!
Verification of the page-scripting utilities in `src/lmsapp/static/js/script.js`:
an alert helper (`showAlert`), a `DOMContentLoaded` handler that wires a click
handler onto `#myButton` when present, and a basic non-empty-field check
(`validateForm`) on the `#username` input.

The DOM environment is shallowly embedded as an explicit state record:
the current value of the username field (absent element = `none`), whether the
button element exists, the list of click handlers attached to the button, and
the log of `alert(...)` calls in the order they were issued.
-/

/-- A click handler that can be attached to the button.  The only handler the
source ever attaches is the anonymous closure `function() { showAlert("Button clicked!"); }`
from lines 10–12 of `script.js`. -/
inductive Handler where
  | alertButtonClicked
  deriving Repr, DecidableEq

/-- The state of the page environment the script runs against.
`usernameValue = none` models `document.getElementById("username")` returning
`null` (the element is missing); `some v` models a field whose `.value` is `v`.
`alerts` logs every string passed to `alert`, oldest first. -/
structure Env where
  usernameValue : Option String
  buttonPresent : Bool
  buttonHandlers : List Handler
  alerts : List String
  deriving Repr, DecidableEq

/-- `function showAlert(message) { alert(message); }` (lines 2–4): its sole
effect is one `alert` call with exactly the given string. -/
def showAlert (message : String) (e : Env) : Env :=
  { e with alerts := e.alerts ++ [message] }

/-- Running one attached handler.  `Handler.alertButtonClicked` is the closure
`function() { showAlert("Button clicked!"); }`. -/
def runHandler : Handler → Env → Env
  | Handler.alertButtonClicked, e => showAlert "Button clicked!" e

/-- The `DOMContentLoaded` handler (lines 7–14): look up `#myButton`; if it is
present, attach the `"Button clicked!"` click handler; otherwise do nothing. -/
def onReady (e : Env) : Env :=
  if e.buttonPresent then
    { e with buttonHandlers := e.buttonHandlers ++ [Handler.alertButtonClicked] }
  else
    e

/-- A user activation (click) of the button: every attached handler fires in
attachment order. -/
def clickButton (e : Env) : Env :=
  e.buttonHandlers.foldl (fun s h => runHandler h s) e

/-- `N` successive clicks of the button. -/
def clickN : Nat → Env → Env
  | 0, e => e
  | Nat.succ n, e => clickN n (clickButton e)

/-- `function validateForm()` (lines 17–24).  Reads
`document.getElementById("username").value`; when the element is missing the
member access throws (modelled as `none`, the error propagating to the caller).
Otherwise: if the value `=== ""`, `alert("Username is required!")` and return
`false`; else return `true`.  The result pairs the returned boolean with the
environment after the call. -/
def validateForm (e : Env) : Option (Bool × Env) :=
  match e.usernameValue with
  | none => none
  | some username =>
    if username = "" then
      some (false, showAlert "Username is required!" e)
    else
      some (true, e)

/-- The notifications a call issued: the suffix of the alert log beyond what
was already there before the call. -/
def newAlerts (before after : Env) : List String :=
  after.alerts.drop before.alerts.length

/-- Execution states reachable before the ready (`DOMContentLoaded`) signal has
fired: the initial page state has no handlers attached and an empty alert log,
and before the ready signal the user may click the button, submit the form
(running `validateForm` when it returns), or edit the field. -/
inductive PreReady : Env → Prop where
  | init (u : Option String) (b : Bool) : PreReady ⟨u, b, [], []⟩
  | click {e : Env} : PreReady e → PreReady (clickButton e)
  | validated {e e' : Env} {b : Bool} :
      PreReady e → validateForm e = some (b, e') → PreReady e'
  | type {e : Env} (v : Option String) :
      PreReady e → PreReady { e with usernameValue := v }

lemma showAlert_frame (m : String) (e : Env) :
    (showAlert m e).usernameValue = e.usernameValue ∧
    (showAlert m e).buttonPresent = e.buttonPresent ∧
    (showAlert m e).buttonHandlers = e.buttonHandlers :=
  ⟨rfl, rfl, rfl⟩

lemma validateForm_preserves {e : Env} {b : Bool} {e' : Env}
    (h : validateForm e = some (b, e')) :
    e'.usernameValue = e.usernameValue ∧
    e'.buttonPresent = e.buttonPresent ∧
    e'.buttonHandlers = e.buttonHandlers := by
  unfold validateForm at h
  cases hu : e.usernameValue with
  | none => simp [hu] at h
  | some u =>
    rw [hu] at h
    by_cases hv : u = ""
    · simp [hv] at h
      cases h.2
      exact ⟨hu, rfl, rfl⟩
    · simp [hv] at h
      cases h.2
      exact ⟨hu, rfl, rfl⟩

lemma clickButton_of_no_handlers {e : Env} (h : e.buttonHandlers = []) :
    clickButton e = e := by
  simp [clickButton, h]

lemma preReady_no_handlers {e : Env} (h : PreReady e) : e.buttonHandlers = [] := by
  induction h with
  | init u b => rfl
  | click _ ih => rw [clickButton_of_no_handlers ih]; exact ih
  | validated _ hv ih => rw [(validateForm_preserves hv).2.2]; exact ih
  | type v _ ih => exact ih

lemma clickButton_single {e : Env}
    (h : e.buttonHandlers = [Handler.alertButtonClicked]) :
    clickButton e = showAlert "Button clicked!" e := by
  simp [clickButton, h, runHandler]

lemma clickN_alerts (m : Nat) : ∀ (e : Env),
    e.buttonHandlers = [Handler.alertButtonClicked] →
    (clickN m e).alerts = e.alerts ++ List.replicate m "Button clicked!" := by
  induction m with
  | zero => intro e _; simp [clickN]
  | succ n ih =>
    intro e h
    have hc : clickButton e = showAlert "Button clicked!" e := clickButton_single h
    have hh : (clickButton e).buttonHandlers = [Handler.alertButtonClicked] := by
      rw [hc]; exact h
    calc (clickN (n + 1) e).alerts
        = (clickN n (clickButton e)).alerts := rfl
      _ = (clickButton e).alerts ++ List.replicate n "Button clicked!" := ih _ hh
      _ = e.alerts ++ List.replicate (n + 1) "Button clicked!" := by
          rw [hc]
          simp [showAlert, List.replicate_succ]

/-- C1: whenever the username field exists and its current value is the empty
string, `validateForm` returns `false` and issues exactly one notification,
whose message is exactly "Username is required!". -/
theorem validateForm_empty_value (e : Env) (h : e.usernameValue = some "") :
    ∃ e', validateForm e = some (false, e') ∧
      newAlerts e e' = ["Username is required!"] := by
  refine ⟨showAlert "Username is required!" e, ?_, ?_⟩
  · simp [validateForm, h]
  · simp [newAlerts, showAlert]

/-- Witness for C1 at the concrete environment whose field value is `""`. -/
theorem validateForm_empty_value_witness :
    ∃ e', validateForm ⟨some "", true, [], []⟩ = some (false, e') ∧
      newAlerts ⟨some "", true, [], []⟩ e' = ["Username is required!"] :=
  validateForm_empty_value ⟨some "", true, [], []⟩ rfl

/-- C2: whenever the username field exists and its current value is any
non-empty string (no trimming: whitespace-only counts as non-empty),
`validateForm` returns `true` and issues no notification (the environment,
alert log included, is unchanged). -/
theorem validateForm_nonempty_value (e : Env) (u : String)
    (h : e.usernameValue = some u) (hne : u ≠ "") :
    validateForm e = some (true, e) ∧ newAlerts e e = [] := by
  constructor
  · simp [validateForm, h, hne]
  · simp [newAlerts]

/-- Witness for C2 at a whitespace-only field value `" "`. -/
theorem validateForm_nonempty_value_witness :
    validateForm ⟨some " ", false, [], []⟩ = some (true, ⟨some " ", false, [], []⟩) ∧
      newAlerts ⟨some " ", false, [], []⟩ ⟨some " ", false, [], []⟩ = [] :=
  validateForm_nonempty_value ⟨some " ", false, [], []⟩ " " rfl (by decide)

/-- C3: when no element with the username identifier exists, `validateForm`
does not handle the condition: the call produces no boolean and no
notification; the member access fails and the host error propagates
(modelled by the `none` result). -/
theorem validateForm_missing_field (e : Env) (h : e.usernameValue = none) :
    validateForm e = none := by
  simp [validateForm, h]

/-- Witness for C3 at the concrete environment with no username element. -/
theorem validateForm_missing_field_witness :
    validateForm ⟨none, true, [], []⟩ = none :=
  validateForm_missing_field ⟨none, true, [], []⟩ rfl

/-- C4: if the button element is present at ready-time (and, as on a freshly
loaded page, no handler is attached yet), the ready handler attaches exactly
one click handler, and for every N, N subsequent activations invoke the
notifier exactly N times, each time with exactly "Button clicked!". -/
theorem onReady_attaches_one_handler (e : Env)
    (hb : e.buttonPresent = true) (h0 : e.buttonHandlers = []) :
    (onReady e).buttonHandlers = [Handler.alertButtonClicked] ∧
    ∀ N : Nat, (clickN N (onReady e)).alerts =
      e.alerts ++ List.replicate N "Button clicked!" := by
  have hr : onReady e = { e with buttonHandlers := [Handler.alertButtonClicked] } := by
    simp [onReady, hb, h0]
  constructor
  · rw [hr]
  · intro N
    have := clickN_alerts N (onReady e) (by rw [hr])
    rw [this, hr]

/-- Witness for C4: a present button, three clicks, three notifications. -/
theorem onReady_attaches_one_handler_witness :
    (onReady ⟨some "x", true, [], []⟩).buttonHandlers = [Handler.alertButtonClicked] ∧
    (clickN 3 (onReady ⟨some "x", true, [], []⟩)).alerts =
      ["Button clicked!", "Button clicked!", "Button clicked!"] := by
  have h := onReady_attaches_one_handler ⟨some "x", true, [], []⟩ rfl rfl
  exact ⟨h.1, by rw [h.2 3]; rfl⟩

/-- C5: if the button element is absent at ready-time, the ready handler
attaches no handler and terminates normally with the environment unchanged
(in particular, it raises no error: it is a total step). -/
theorem onReady_absent_skips (e : Env) (hb : e.buttonPresent = false) :
    onReady e = e := by
  simp [onReady, hb]

/-- Witness for C5 at a concrete environment without the button. -/
theorem onReady_absent_skips_witness :
    onReady ⟨some "x", false, [], []⟩ = ⟨some "x", false, [], []⟩ :=
  onReady_absent_skips ⟨some "x", false, [], []⟩ rfl

/-- C6: for every string m (the empty string included), `showAlert m` presents
exactly the string m — one alert whose text is m, untransformed — and this is
its only observable effect: every other component of the environment is
unchanged. -/
theorem showAlert_passthrough (m : String) (e : Env) :
    newAlerts e (showAlert m e) = [m] ∧
    (showAlert m e).usernameValue = e.usernameValue ∧
    (showAlert m e).buttonPresent = e.buttonPresent ∧
    (showAlert m e).buttonHandlers = e.buttonHandlers := by
  refine ⟨?_, (showAlert_frame m e).1, (showAlert_frame m e).2.1, (showAlert_frame m e).2.2⟩
  simp [newAlerts, showAlert]

/-- C7: `validateForm` is idempotent — if a call in environment e returns the
boolean b, a second call in the resulting environment (the field value having
not been touched in between) returns the same boolean b. -/
theorem validateForm_idempotent (e : Env) (b : Bool) (e' : Env)
    (h : validateForm e = some (b, e')) :
    ∃ e'', validateForm e' = some (b, e'') := by
  have hp := (validateForm_preserves h).1
  unfold validateForm at h ⊢
  cases hu : e.usernameValue with
  | none => simp [hu] at h
  | some u =>
    rw [hu] at h
    rw [hp, hu]
    by_cases hv : u = ""
    · simp [hv] at h ⊢
      exact h.1
    · simp [hv] at h ⊢
      exact h.1

/-- Witness for C7: the false-returning branch at field value `""`. -/
theorem validateForm_idempotent_witness :
    ∃ e'', validateForm (showAlert "Username is required!" ⟨some "", true, [], []⟩) =
      some (false, e'') :=
  validateForm_idempotent ⟨some "", true, [], []⟩ false
    (showAlert "Username is required!" ⟨some "", true, [], []⟩) rfl

/-- C8: `validateForm` and `showAlert` are stateless single-shot operations —
on either branch of a returning `validateForm` call, and for every `showAlert`
call, the field value, the button, and the attached handlers are unchanged;
only the alert log can grow. -/
theorem validateForm_showAlert_stateless (e : Env) (b : Bool) (e' : Env)
    (m : String) (h : validateForm e = some (b, e')) :
    (e'.usernameValue = e.usernameValue ∧
     e'.buttonPresent = e.buttonPresent ∧
     e'.buttonHandlers = e.buttonHandlers) ∧
    ((showAlert m e).usernameValue = e.usernameValue ∧
     (showAlert m e).buttonPresent = e.buttonPresent ∧
     (showAlert m e).buttonHandlers = e.buttonHandlers) :=
  ⟨validateForm_preserves h, showAlert_frame m e⟩

/-- Witness for C8 on the false-returning branch at field value `""`. -/
theorem validateForm_showAlert_stateless_witness :
    ((showAlert "Username is required!" ⟨some "", true, [], []⟩).usernameValue =
        (⟨some "", true, [], []⟩ : Env).usernameValue ∧
     (showAlert "Username is required!" ⟨some "", true, [], []⟩).buttonPresent =
        (⟨some "", true, [], []⟩ : Env).buttonPresent ∧
     (showAlert "Username is required!" ⟨some "", true, [], []⟩).buttonHandlers =
        (⟨some "", true, [], []⟩ : Env).buttonHandlers) ∧
    ((showAlert "hi" ⟨some "", true, [], []⟩).usernameValue =
        (⟨some "", true, [], []⟩ : Env).usernameValue ∧
     (showAlert "hi" ⟨some "", true, [], []⟩).buttonPresent =
        (⟨some "", true, [], []⟩ : Env).buttonPresent ∧
     (showAlert "hi" ⟨some "", true, [], []⟩).buttonHandlers =
        (⟨some "", true, [], []⟩ : Env).buttonHandlers) :=
  validateForm_showAlert_stateless ⟨some "", true, [], []⟩ false
    (showAlert "Username is required!" ⟨some "", true, [], []⟩) "hi" rfl

/-- C9: `validateForm` is deterministic in the field value — two calls in
environments holding equal username values produce the same outcome: the same
returned boolean and the same sequence of newly issued notifications (or both
fail), regardless of any other environment state. -/
theorem validateForm_deterministic (e₁ e₂ : Env)
    (h : e₁.usernameValue = e₂.usernameValue) :
    Option.map (fun r => (r.1, newAlerts e₁ r.2)) (validateForm e₁) =
    Option.map (fun r => (r.1, newAlerts e₂ r.2)) (validateForm e₂) := by
  unfold validateForm
  cases hu : e₂.usernameValue with
  | none => rw [h, hu]; simp
  | some u =>
    rw [h, hu]
    by_cases hv : u = ""
    · simp [hv, newAlerts, showAlert]
    · simp [hv, newAlerts]

/-- Witness for C9: two environments sharing the value `""` but differing in
every other component give identical outcomes. -/
theorem validateForm_deterministic_witness :
    Option.map (fun r => (r.1, newAlerts ⟨some "", true, [], []⟩ r.2))
        (validateForm ⟨some "", true, [], []⟩) =
    Option.map (fun r => (r.1, newAlerts ⟨some "", false, [], ["old"]⟩ r.2))
        (validateForm ⟨some "", false, [], ["old"]⟩) :=
  validateForm_deterministic ⟨some "", true, [], []⟩ ⟨some "", false, [], ["old"]⟩ rfl

/-- C10: in every execution state reachable before the ready signal fires, an
activation of the button invokes the notifier zero times — indeed it changes
nothing — because the only click-handler attachment happens inside the ready
handler. -/
theorem preReady_click_silent (e : Env) (h : PreReady e) :
    clickButton e = e :=
  clickButton_of_no_handlers (preReady_no_handlers h)

/-- Witness for C10 at a concrete pre-ready state reached by one click and one
field edit from the initial state. -/
theorem preReady_click_silent_witness :
    clickButton (clickButton { (⟨some "a", true, [], []⟩ : Env) with usernameValue := some "b" }) =
      clickButton { (⟨some "a", true, [], []⟩ : Env) with usernameValue := some "b" } :=
  preReady_click_silent _
    (PreReady.click (PreReady.type (some "b") (PreReady.init (some "a") true)))
